import Mathlib

/-!
Verification development for the AppVision integration adapter
(n8n trigger node + MCP tool server + shared session manager).

The definitions below are a shallow embedding of the TypeScript/JavaScript
sources:
  * `src/McpAppvision/build/index.js` — the MCP tool server (the
    `login-session` tool and the catalog of operation wrappers);
  * `src/nodes/AppVision/AppvisionTrigger.node.ts` — the n8n trigger node
    (connect, enable notifications, polling loop, cleanup);
  * the shared session manager (`sessionManager.ts`: `saveSessionToFile`,
    `getSession`, `getIp`, `keepAlive`, `stopKeepAlive`) and
    `utils.ts` (`getSessionAndHeaders`);
  * the n8n service node's `execute` pre-check.

Effectful code is embedded as pure functions over explicit state
(file-system record, timer state, trigger state) together with explicit
effect/action traces.
-/

namespace AppVision

/-! ## String utilities

`String.prototype.includes` of JavaScript: substring containment.
-/

/-- `startsWithB sub l` is true iff `sub` is a prefix of `l`. -/
def startsWithB : List Char → List Char → Bool
  | [], _ => true
  | _ :: _, [] => false
  | a :: as, b :: bs => a == b && startsWithB as bs

/-- `containsSubList sub l` is true iff `sub` occurs contiguously in `l`. -/
def containsSubList (sub : List Char) : List Char → Bool
  | [] => startsWithB sub []
  | b :: bs => startsWithB sub (b :: bs) || containsSubList sub bs

/-- JavaScript `s.includes(sub)`. -/
def includes (s sub : String) : Bool := containsSubList sub.data s.data

/-! ## Authentication-response classification

The `login-session` tool of `index.js` classifies the raw body of the
`Login` response by substring sentinels, in source order:
`401`, then `402`, then `406`, then `500`; anything else (including a
falsy — absent or empty — body, which skips the whole `if (result)`
block) is reported as success.
-/

inductive AuthResult where
  | success
  | unauthorized
  | tooManyClients
  | passwordChangeRequired
  | internalServerError
  deriving DecidableEq, Repr

/-- Classification of the raw `Login` response body performed by the
`login-session` tool (`index.js`, the `if (result) { ... includes('401')
... }` cascade). `none` models a `null` result (request failed or empty
response text); `some ""` models an empty string, which is falsy in JS
and therefore also skips the sentinel checks. -/
def classifyLogin : Option String → AuthResult
  | none => .success
  | some r =>
    if r = "" then .success
    else if includes r "401" then .unauthorized
    else if includes r "402" then .tooManyClients
    else if includes r "406" then .passwordChangeRequired
    else if includes r "500" then .internalServerError
    else .success

/-- The literal result texts the `login-session` tool returns for each
classification; the success text interpolates the raw body
(JS renders a `null` interpolation as the string `"null"`). -/
def loginResultText (a : AuthResult) (raw : Option String) : String :=
  match a with
  | .unauthorized => "Unauthorized: Incorrect username or password."
  | .tooManyClients => "Too many clients or users connected. Please try again later."
  | .passwordChangeRequired => "New user detected. Please change the password."
  | .internalServerError => "Internal server error. Please contact support."
  | .success =>
    "Session created successfully: " ++ (match raw with | none => "null" | some s => s)

/-! ## Session store (sessionManager.ts)

The durable state consists of two JSON files:
  * `sessionId.json` (`SESSION_FILE`) — written by the trigger node's
    `connectToServer` as an array `[{ sessionId, ip }]`, read by
    `getSession`, `getIp`, `keepAlive` and the service node's `execute`;
  * `sessionIdMcp.json` (`SESSION_FILE_MCP`) — written by
    `saveSessionToFile` as an object `{ sessionId }`.

File contents are modelled structurally: `arrOf` is a JSON array of
`{sessionId, ip}` objects, `objOf` a JSON object `{sessionId}`, and
`malformed` stands for content on which `JSON.parse` throws.
-/

/-- One element of the JSON array stored in `sessionId.json`:
`{ sessionId, ip }`, either field possibly `null`/absent. -/
structure SessEntry where
  sessionId : Option String
  ip : Option String
  deriving DecidableEq, Repr

/-- Parsed content of a session file. -/
inductive SessContent where
  | arrOf (entries : List SessEntry)
  | objOf (sessionId : Option String)
  | malformed
  deriving DecidableEq, Repr

/-- The two durable session files; `none` means the file does not exist. -/
structure FS where
  mcpFile : Option SessContent
  sessionFile : Option SessContent
  deriving DecidableEq, Repr

/-- A file system with neither session file present. -/
def emptyFS : FS := { mcpFile := none, sessionFile := none }

/-- `saveSessionToFile(id)` (sessionManager.ts): writes
`JSON.stringify({ sessionId: id })` to `SESSION_FILE_MCP`
(`sessionIdMcp.json`). Note: it takes only the id — no peer address —
and touches only the MCP file. -/
def saveSessionToFile (id : Option String) (f : FS) : FS :=
  { f with mcpFile := some (.objOf id) }

/-- JS truthiness for an optional string: `null`/`undefined` and `""`
are falsy. -/
def jsTruthyStr : Option String → Option String
  | none => none
  | some s => if s = "" then none else some s

/-- `getSession()` (sessionManager.ts): reads `SESSION_FILE`
(`sessionId.json`), expects `[{sessionId, ...}]`; returns the first
element's `sessionId` when truthy, otherwise `null` (missing file,
malformed JSON, non-array content, empty array, falsy field). -/
def getSession (f : FS) : Option String :=
  match f.sessionFile with
  | some (.arrOf (e :: _)) => jsTruthyStr e.sessionId
  | _ => none

/-- `getIp()` (sessionManager.ts): same file and shape as `getSession`,
returning the first element's `ip` when truthy. -/
def getIp (f : FS) : Option String :=
  match f.sessionFile with
  | some (.arrOf (e :: _)) => jsTruthyStr e.ip
  | _ => none

/-- The session-file load performed inside `keepAlive()`
(sessionManager.ts): it reads `SESSION_FILE` but casts the parse result
as an *object* `{ sessionId?: string }` and takes `parsed.sessionId` —
on array-shaped content that property is `undefined`, so load fails. -/
def keepAliveLoadSession (f : FS) : Option String :=
  match f.sessionFile with
  | some (.objOf sid) => jsTruthyStr sid
  | _ => none

/-- Timer state of the session manager: the `keepAliveInterval` handle,
recorded as (period in ms, sessionId captured by the closure), and the
`stopKeepAliveTimeout` handle, recorded as its delay in ms. -/
structure TimerState where
  keepAliveInterval : Option (Nat × String)
  stopKeepAliveTimeout : Option Nat
  deriving DecidableEq, Repr

/-- Timer state with no live timers. -/
def ts0 : TimerState := { keepAliveInterval := none, stopKeepAliveTimeout := none }

/-- `keepAlive()` (sessionManager.ts): loads the session id from
`SESSION_FILE` via the object-shaped cast above; if no id is obtained it
returns without scheduling anything; otherwise it installs the 10s probe
interval (capturing the loaded id) and the 5-minute stop timeout. -/
def keepAliveRun (f : FS) (ts : TimerState) : TimerState :=
  match keepAliveLoadSession f with
  | none => ts
  | some sid =>
    { keepAliveInterval := some (10000, sid)
      stopKeepAliveTimeout := some (5 * 60 * 1000) }

/-- The session-file write performed by the trigger node's
`connectToServer` (AppvisionTrigger.node.ts): writes
`JSON.stringify([{ sessionId, ip }])` to `sessionId.json`. -/
def triggerWriteSession (sid ip : String) (f : FS) : FS :=
  { f with sessionFile := some (.arrOf [{ sessionId := some sid, ip := some ip }]) }

/-! ## The `login-session` tool (index.js)

Control flow of the tool handler, with the remote peer abstracted as a
record of responses. `openSessionId` stands for the trimmed text of the
first `<string>` element of the `Open` response: `none` when the fetch
throws or the element/text is missing (both paths throw into the outer
`catch`), `some ""` when the text is whitespace-only (trim yields the
empty string, caught by the separate `if (!sessionId)` check).

The side effects are returned as an ordered trace: the handler calls
`saveSessionToFile(sessionId)` and `keepAlive()` first, then issues the
`Login`, `StartNotifications` and `AddFilterNotifications` requests, and
only then classifies the `Login` body.
-/

/-- Responses of the mocked peer, as seen through `AppVisionRequest`
(which maps thrown errors and empty bodies to `null`). -/
structure Peer where
  openSessionId : Option String
  loginResp : Option String
  startResp : Option String
  filterResp : Option String
  deriving DecidableEq, Repr

/-- Ordered side effects of the `login-session` handler. -/
inductive LEffect where
  | save (id : Option String)
  | keepAliveCall
  | loginCall
  | startNotifCall
  | addFilterCall
  deriving DecidableEq, Repr

/-- The `login-session` tool handler (index.js): returns the result
text, the updated file system, the updated timer state and the ordered
effect trace. -/
def loginSession (peer : Peer) (f : FS) (ts : TimerState) :
    String × FS × TimerState × List LEffect :=
  match peer.openSessionId with
  | none =>
    ("Error retrieving sessionId: Session ID not found in the response XML.", f, ts, [])
  | some sid =>
    if sid = "" then
      ("Failed to retrieve sessionId from AppVision.", f, ts, [])
    else
      let f1 := saveSessionToFile (some sid) f
      let ts1 := keepAliveRun f1 ts
      (loginResultText (classifyLogin peer.loginResp) peer.loginResp, f1, ts1,
        [LEffect.save (some sid), LEffect.keepAliveCall, LEffect.loginCall,
         LEffect.startNotifCall, LEffect.addFilterCall])

/-! ## Operation wrappers

`getSessionAndHeaders` (utils.ts) calls `keepAlive()`, then `getSession()`
and `getIp()`, and returns `null` when no session id is available.
Every MCP tool handler other than `login-session` either calls it or
inlines the same sequence (`get-current-alarms` does the latter) and
returns the literal `"No active session. Please log in first."` without
issuing any network request when it yields no session id.
-/

/-- The uniform missing-session literal of the MCP tool handlers. -/
def noSessionMsg : String := "No active session. Please log in first."

/-- `getSessionAndHeaders()` (utils.ts), minus the header record (which
is a pure function of the returned pair): `null` when `getSession` is
falsy, else the session id and the (possibly null) ip. -/
def getSessionAndHeadersM (f : FS) : Option (String × Option String) :=
  match getSession f with
  | none => none
  | some sid => some (sid, getIp f)

/-- Shared skeleton of every MCP tool handler except `login-session`
(index.js): pre-check the session, return the uniform literal with zero
network calls when absent, otherwise run the operation's single request
and translate its response. `call` abstracts the request issued with the
session id and ip, `onResp` the handler-specific response translation.
The second component counts network calls attempted. -/
def mcpWrapper (f : FS) (call : String → Option String → Option String)
    (onResp : Option String → String) : String × Nat :=
  match getSessionAndHeadersM f with
  | none => (noSessionMsg, 0)
  | some (sid, ip) => (onResp (call sid ip), 1)

/-- The `get-current-alarms` tool handler (index.js): inlines
`keepAlive(); getSession(); getIp()` and the same pre-check, then issues
the `GetCurrentAlarms` request. -/
def getCurrentAlarmsTool (f : FS) (call : String → Option String → Option String) :
    String × Nat :=
  match getSession f with
  | none => (noSessionMsg, 0)
  | some sid =>
    (match call sid (getIp f) with
     | none => "Failed to retrieve current alarms."
     | some r => r, 1)

/-- Outcome of the session pre-check at the top of the n8n service
node's `execute` (part_001). -/
inductive ExecPre where
  | err (msg : String)
  | ok (sid : String)
  deriving DecidableEq, Repr

/-- The session pre-check of `AppvisionService.execute` (part_001):
reading `sessionId.json`; a missing or unparsable file throws into the
catch (`Impossible de lire le fichier sessionId.json`); parsable content
that is not a non-empty array with a truthy first `sessionId` yields the
`Aucun sessionId trouvé` error; otherwise the id is used. -/
def executePrecheck (f : FS) : ExecPre :=
  match f.sessionFile with
  | none => .err "Impossible de lire le fichier sessionId.json"
  | some .malformed => .err "Impossible de lire le fichier sessionId.json"
  | some (.arrOf (e :: _)) =>
    match jsTruthyStr e.sessionId with
    | some sid => .ok sid
    | none => .err "Aucun sessionId trouvé, veuillez vérifier votre fichier sessionId.json"
  | some (.arrOf []) =>
    .err "Aucun sessionId trouvé, veuillez vérifier votre fichier sessionId.json"
  | some (.objOf _) =>
    .err "Aucun sessionId trouvé, veuillez vérifier votre fichier sessionId.json"

/-- `AppvisionService.execute` as a wrapper: on a pre-check error the
error message is returned with zero network calls; otherwise the
selected operation runs with the session id. -/
def executeOp (f : FS) (runOp : String → String) : String × Nat :=
  match executePrecheck f with
  | .err m => (m, 0)
  | .ok sid => (runOp sid, 1)

/-! ## Notification poller (AppvisionTrigger.node.ts)

`monitorNotifications` runs a `while (isActive)` loop. Each iteration
fetches `GetNotifications?count=10`; the body parses the XML, normalizes
`ArrayOfNotification.Notification` to an array, filters by the known
type discriminators, clears and repopulates `outputArray`, and emits.
The `catch` handler resets all channels, pushes the disconnect message
into channel 6, emits, and re-runs `connectToServer` and
`enableNotifications`.
-/

/-- The `Data` object of a parsed notification:
`Data["@_i:type"]`, `Data.type`, `Data.Alarm`, `Data.Description`. -/
structure DataObj where
  typeAttr : Option String
  typeField : Option String
  alarm : Option String
  description : Option String
  deriving DecidableEq, Repr

/-- A parsed `Notification` element; `Data` may be absent. -/
structure RawNotif where
  data : Option DataObj
  deriving DecidableEq, Repr

/-- The type discriminator:
`notification.Data?.["@_i:type"] || notification.Data?.type || "Unknown"`
(JS `||`, so empty strings fall through). -/
def discrOf (n : RawNotif) : String :=
  match n.data with
  | none => "Unknown"
  | some d =>
    match jsTruthyStr d.typeAttr with
    | some t => t
    | none =>
      match jsTruthyStr d.typeField with
      | some t => t
      | none => "Unknown"

/-- Membership in the known-types list of the filter. -/
def knownB (t : String) : Bool :=
  ["EventRow", "VariableState", "AlarmInfo", "GroupState", "AreaState",
   "ProtocolState", "ServerState"].contains t

/-- The `outputIndex` assigned in the dispatch cascade; `none` models
the `-1` (not pushed) case. Channel 6 is never assigned: it is the
synthetic connection-status channel. -/
def routeIndex (t : String) : Option Nat :=
  if t = "EventRow" then some 0
  else if t = "VariableState" then some 1
  else if t = "AlarmInfo" then some 2
  else if t = "GroupState" then some 3
  else if t = "AreaState" then some 4
  else if t = "ProtocolState" then some 5
  else if t = "ServerState" then some 7
  else none

/-- An item held in an output channel. -/
inductive Item where
  /-- `{ message }` pushed to channel 6 by connect/disconnect paths. -/
  | connMsg (message : String)
  /-- `{ message, sessionId }` pushed to channel 6 by `cleanup`. -/
  | connMsgSession (message : String) (sessionId : String)
  /-- `{ notification: { type, data } }` (`data` absent means the
  `"N/A"` fallback of `notification.Data || "N/A"`). -/
  | plainNotif (type : String) (data : Option DataObj)
  /-- `{ notification: { type, Alarm, Description } }` for AlarmInfo. -/
  | alarmNotif (type : String) (alarm : String) (descr : String)
  deriving DecidableEq, Repr

/-- The formatted notification pushed for a given raw notification,
following the dispatch cascade: AlarmInfo surfaces
`Data?.Alarm || "N/A"` and `Data?.Description || "N/A"`; the other known
types carry `Data || "N/A"` generically. -/
def formatNotif (n : RawNotif) : Item :=
  let t := discrOf n
  if t = "AlarmInfo" then
    .alarmNotif t
      ((jsTruthyStr (n.data.bind DataObj.alarm)).getD "N/A")
      ((jsTruthyStr (n.data.bind DataObj.description)).getD "N/A")
  else
    .plainNotif t n.data

/-- Eight empty output channels (`[[], [], [], [], [], [], [], []]`). -/
def emptyArr8 : List (List Item) := [[], [], [], [], [], [], [], []]

/-- `outputArray[i].push(x)`. -/
def pushChan (arr : List (List Item)) (i : Nat) (x : Item) : List (List Item) :=
  arr.set i (arr.getD i [] ++ [x])

/-- The first-batch clearing: `for i, if i !== 6 then outputArray[i] = []`. -/
def firstTimeClear (arr : List (List Item)) : List (List Item) :=
  arr.enum.map (fun p => if p.1 = 6 then p.2 else [])

/-- The `forEach` dispatch over the filtered notifications: each one is
formatted and pushed to its `outputIndex` when that is not `-1`. -/
def dispatch (arr : List (List Item)) (ns : List RawNotif) : List (List Item) :=
  ns.foldl
    (fun a n =>
      match routeIndex (discrOf n) with
      | some i => pushChan a i (formatNotif n)
      | none => a)
    arr

/-- The `filteredNotifications` computation: keep only the entries whose
discriminator is a known type. -/
def knownOnly (ns : List RawNotif) : List RawNotif :=
  ns.filter (fun n => knownB (discrOf n))

/-- In-memory state of one trigger invocation: the closure variables
`outputArray`, `isFirstTime`, `isActive`, `sessionId`. -/
structure TriggerState where
  outputArray : List (List Item)
  isFirstTime : Bool
  isActive : Bool
  sessionId : Option String
  deriving DecidableEq, Repr

/-- In-memory effect of `connectToServer` (AppvisionTrigger.node.ts):
stores the new session id, resets `outputArray` to eight empty channels,
pushes `{ message: "Connection successful" }` to channel 6, and sets
`isFirstTime = true`. (Its durable write is `triggerWriteSession`.) -/
def connectEffect (newSid : String) (st : TriggerState) : TriggerState :=
  { st with
    sessionId := some newSid
    outputArray := pushChan emptyArr8 6 (.connMsg "Connection successful")
    isFirstTime := true }

/-- Outcome of the `GetNotifications` fetch for one cycle. -/
inductive FetchOutcome where
  /-- The request threw (transport failure). -/
  | failure
  /-- Falsy response or whitespace-only body: nothing to report. -/
  | respEmpty
  /-- `parser.parse` threw: logged, treated as nothing this cycle. -/
  | parseError
  /-- Parsed batch, `ArrayOfNotification.Notification` normalized. -/
  | parsed (notifs : List RawNotif)
  deriving DecidableEq, Repr

/-- Observable actions of one loop iteration, in order. -/
inductive Action where
  | emit (e : List (List Item))
  | connect
  | enableNotifs
  | sleep
  | closeCall
  deriving DecidableEq, Repr

/-- The emitted fan-outs among a list of actions. -/
def emissionsOf (acts : List Action) : List (List (List Item)) :=
  acts.filterMap (fun a => match a with | .emit e => some e | _ => none)

/-- The channel array built and emitted by the `catch` handler of
`monitorNotifications`: all channels reset, channel 6 holding the
disconnect message. -/
def disconnectArr : List (List Item) :=
  pushChan emptyArr8 6 (.connMsg "Deconnection detected")

/-- One iteration of the `monitorNotifications` loop body, given the
fetch outcome of the cycle and (for the failure path) the session id
the subsequent `connectToServer` obtains. Returns the state after the
iteration and the ordered actions it performed. -/
def monitorStep (st : TriggerState) (fo : FetchOutcome) (newSid : String) :
    TriggerState × List Action :=
  match fo with
  | .failure =>
    let st1 := { st with outputArray := disconnectArr }
    (connectEffect newSid st1, [.emit disconnectArr, .connect, .enableNotifs])
  | .respEmpty => (st, [.sleep])
  | .parseError => (st, [.sleep])
  | .parsed notifs =>
    if notifs.isEmpty then (st, [.sleep])
    else
      let filtered := knownOnly notifs
      if filtered.isEmpty then (st, [.sleep])
      else
        let base := if st.isFirstTime then firstTimeClear st.outputArray else emptyArr8
        let arr := dispatch base filtered
        ({ st with outputArray := arr, isFirstTime := false },
         [.emit arr, .sleep])

/-- Result of running the `cleanup` close function: either it ran to the
end (reaching `isActive = false`) or the un-caught `Close` request
rejection escaped it. -/
inductive CleanupOutcome where
  | completed (st : TriggerState) (acts : List Action)
  | raised (st : TriggerState) (acts : List Action)
  deriving DecidableEq, Repr

/-- The `cleanup` close function (AppvisionTrigger.node.ts): with a
session id it awaits the `Close` request — which has no surrounding
try/catch, so a rejection escapes before anything else runs — then
resets the channels, pushes the final disconnect notice (with the
session id) to channel 6, emits, and finally sets `isActive = false`;
with no session id it only sets `isActive = false`. -/
def cleanup (st : TriggerState) (closeFails : Bool) : CleanupOutcome :=
  match st.sessionId with
  | some sid =>
    if closeFails then .raised st [.closeCall]
    else
      let arr := pushChan emptyArr8 6
        (.connMsgSession "Deconnection detected, caused by desacitvation" sid)
      .completed { st with outputArray := arr, isActive := false }
        [.closeCall, .emit arr]
  | none => .completed { st with isActive := false } []

/-! ## Spec-side comparison predicate and concrete fixtures -/

/-- Comparison predicate following the spec's words (§4.1 / §8): the
stored record "contains the session token together with the given
peerAddress", read off the first element as `load()` does. Used only to
compare the spec's round-trip expectation with what the source writes. -/
def recordHasPairB (c : SessContent) (sid ip : String) : Bool :=
  match c with
  | .arrOf (e :: _) => e.sessionId == some sid && e.ip == some ip
  | _ => false

/-- A concrete connected trigger state used by witnesses. -/
def stDemo : TriggerState :=
  { outputArray := emptyArr8, isFirstTime := false, isActive := true,
    sessionId := some "abc" }

/-- A concrete raw notification with no recognizable type. -/
def unknownNotif : RawNotif :=
  { data := some { typeAttr := some "Mystery", typeField := none,
                   alarm := none, description := none } }

/-- A concrete AlarmInfo notification. -/
def alarmDemoNotif : RawNotif :=
  { data := some { typeAttr := some "AlarmInfo", typeField := none,
                   alarm := some "A1", description := some "High temp" } }

/-- A concrete mocked peer accepting the credentials with a
sentinel-free body. -/
def peerOk : Peer :=
  { openSessionId := some "sess1", loginResp := some "OK",
    startResp := some "ok", filterResp := some "ok" }

/-! ## Helper lemmas -/

/-- `pushChan` preserves the channel count. -/
theorem pushChan_length (arr : List (List Item)) (i : Nat) (x : Item) :
    (pushChan arr i x).length = arr.length := by
  simp [pushChan]

/-- `pushChan` at a channel other than `j` leaves channel `j` alone. -/
theorem pushChan_getD_ne (arr : List (List Item)) (i j : Nat) (x : Item)
    (h : i ≠ j) : (pushChan arr i x).getD j [] = arr.getD j [] := by
  simp [pushChan, List.getD, List.getElem?_set_ne h]

/-- Every assigned `outputIndex` is one of the seven notification
channels — channel 6 (connection status) is never assigned. -/
theorem routeIndex_ne_six (t : String) (i : Nat) (h : routeIndex t = some i) :
    i ≠ 6 := by
  unfold routeIndex at h
  split_ifs at h <;> simp_all <;> omega

/-- `dispatch` preserves the channel count. -/
theorem dispatch_length (ns : List RawNotif) (arr : List (List Item)) :
    (dispatch arr ns).length = arr.length := by
  induction ns generalizing arr with
  | nil => rfl
  | cons n rest ih =>
    unfold dispatch
    simp only [List.foldl_cons]
    cases hr : routeIndex (discrOf n) with
    | none => exact ih arr
    | some i => exact (ih (pushChan arr i (formatNotif n))).trans (pushChan_length arr i _)

/-- `dispatch` never touches the connection-status channel (index 6). -/
theorem dispatch_getD_six (ns : List RawNotif) (arr : List (List Item)) :
    (dispatch arr ns).getD 6 [] = arr.getD 6 [] := by
  induction ns generalizing arr with
  | nil => rfl
  | cons n rest ih =>
    unfold dispatch
    simp only [List.foldl_cons]
    cases hr : routeIndex (discrOf n) with
    | none => exact ih arr
    | some i =>
      exact (ih (pushChan arr i (formatNotif n))).trans
        (pushChan_getD_ne arr i 6 (formatNotif n) (routeIndex_ne_six _ _ hr))

/-- Filtering to known types is idempotent. -/
theorem knownOnly_idem (ns : List RawNotif) : knownOnly (knownOnly ns) = knownOnly ns := by
  simp [knownOnly, List.filter_filter]

/-- A list with a non-empty filter is non-empty. -/
theorem ne_nil_of_knownOnly_ne_nil (ns : List RawNotif) (h : knownOnly ns ≠ []) :
    ns.isEmpty = false := by
  cases ns with
  | nil => simp [knownOnly] at h
  | cons a l => rfl

/-- A parsed batch whose filtered form is empty produces no emission and
leaves the state untouched. -/
theorem monitorStep_parsed_nil (st : TriggerState) (newSid : String)
    (ns : List RawNotif) (h : knownOnly ns = []) :
    monitorStep st (.parsed ns) newSid = (st, [Action.sleep]) := by
  cases ns with
  | nil => rfl
  | cons a l =>
    unfold monitorStep
    simp [h]

/-- A parsed batch with at least one known-typed entry clears the
working array (sparing channel 6 on the first batch), dispatches the
filtered entries, emits once, and drops the first-time flag. -/
theorem monitorStep_parsed_ne (st : TriggerState) (newSid : String)
    (ns : List RawNotif) (h : knownOnly ns ≠ []) :
    monitorStep st (.parsed ns) newSid =
      ({ st with
          outputArray := dispatch
            (if st.isFirstTime then firstTimeClear st.outputArray else emptyArr8)
            (knownOnly ns)
          isFirstTime := false },
       [Action.emit (dispatch
            (if st.isFirstTime then firstTimeClear st.outputArray else emptyArr8)
            (knownOnly ns)),
        Action.sleep]) := by
  have h1 : ns.isEmpty = false := ne_nil_of_knownOnly_ne_nil ns h
  have h2 : (knownOnly ns).isEmpty = false := by
    cases hk : knownOnly ns with
    | nil => exact absurd hk h
    | cons a l => rfl
  unfold monitorStep
  simp [h1, h2]

/-! ## Claim theorems -/

/-- C1. The `login-session` classification of the raw authentication
body: unauthorized whenever the body contains `"401"` (whatever else it
contains); under the source's precedence order, too-many-clients on
`"402"`, password-change-required on `"406"`, internal-server-error on
`"500"`; success when no recognized sentinel is present, including for
an empty or absent body. -/
theorem login_classification (s : String) :
    (includes s "401" = true → classifyLogin (some s) = .unauthorized)
    ∧ (includes s "401" = false → includes s "402" = true →
        classifyLogin (some s) = .tooManyClients)
    ∧ (includes s "401" = false → includes s "402" = false →
        includes s "406" = true → classifyLogin (some s) = .passwordChangeRequired)
    ∧ (includes s "401" = false → includes s "402" = false →
        includes s "406" = false → includes s "500" = true →
        classifyLogin (some s) = .internalServerError)
    ∧ (includes s "401" = false → includes s "402" = false →
        includes s "406" = false → includes s "500" = false →
        classifyLogin (some s) = .success)
    ∧ classifyLogin none = .success
    ∧ classifyLogin (some "") = .success := by
  by_cases hs : s = ""
  · subst hs
    refine ⟨fun h => absurd h (by decide), fun _ h => absurd h (by decide),
      fun _ _ h => absurd h (by decide), fun _ _ _ h => absurd h (by decide),
      fun _ _ _ _ => rfl, rfl, rfl⟩
  · refine ⟨fun h1 => ?_, fun h1 h2 => ?_, fun h1 h2 h3 => ?_,
      fun h1 h2 h3 h4 => ?_, fun h1 h2 h3 h4 => ?_, rfl, rfl⟩ <;>
      simp [classifyLogin, hs, h1]
    all_goals simp [h2]
    all_goals simp [h3]
    all_goals simp [h4]

/-- C1 witness: concrete bodies exercising the 401 and 402 clauses. -/
theorem login_classification_witness :
    classifyLogin (some "err 401 bad credentials") = AuthResult.unauthorized
    ∧ classifyLogin (some "code 402 here") = AuthResult.tooManyClients :=
  ⟨(login_classification "err 401 bad credentials").1 (by decide),
   (login_classification "code 402 here").2.1 (by decide) (by decide)⟩

/-- C2. On transport failure of the `GetNotifications` fetch, the loop
body emits exactly one fan-out whose only populated channel is the
connection-status channel (index 6), carrying
`"Deconnection detected"`, and then performs the full reconnect
sequence — `connectToServer` followed by `enableNotifications` — before
the loop resumes. -/
theorem poller_failure_single_fanout (st : TriggerState) (newSid : String) :
    (monitorStep st .failure newSid).2
      = [Action.emit disconnectArr, Action.connect, Action.enableNotifs]
    ∧ emissionsOf (monitorStep st .failure newSid).2 = [disconnectArr]
    ∧ disconnectArr.getD 6 [] = [Item.connMsg "Deconnection detected"]
    ∧ (∀ i, i < 8 → i ≠ 6 → disconnectArr.getD i [] = [])
    ∧ (monitorStep st .failure newSid).1
      = connectEffect newSid { st with outputArray := disconnectArr } :=
  ⟨rfl, rfl, rfl, by decide, rfl⟩

/-- C2 witness: the disconnect fan-out at a concrete state, with the
channel bound instantiated. -/
theorem poller_failure_single_fanout_witness :
    disconnectArr.getD 6 [] = [Item.connMsg "Deconnection detected"]
    ∧ disconnectArr.getD 0 [] = [] :=
  ⟨(poller_failure_single_fanout stDemo "next").2.2.1,
   (poller_failure_single_fanout stDemo "next").2.2.2.1 0 (by decide) (by decide)⟩

/-- C9. A fetched batch in which every entry's discriminator is outside
the known types produces no fan-out and no state change; moreover
unknown-typed entries never influence a cycle at all: any batch behaves
exactly like its known-typed sub-batch. -/
theorem unknown_only_batch_emits_nothing (st : TriggerState) (newSid : String)
    (ns : List RawNotif) (h : ∀ n ∈ ns, knownB (discrOf n) = false) :
    monitorStep st (.parsed ns) newSid = (st, [Action.sleep])
    ∧ ∀ ms : List RawNotif,
        monitorStep st (.parsed ms) newSid
          = monitorStep st (.parsed (knownOnly ms)) newSid := by
  constructor
  · have hnil : knownOnly ns = [] :=
      List.filter_eq_nil_iff.mpr (by intro a ha; simp [h a ha])
    exact monitorStep_parsed_nil st newSid ns hnil
  · intro ms
    by_cases hk : knownOnly ms = []
    · rw [monitorStep_parsed_nil st newSid ms hk,
        monitorStep_parsed_nil st newSid (knownOnly ms) (by rw [knownOnly_idem, hk])]
    · rw [monitorStep_parsed_ne st newSid ms hk,
        monitorStep_parsed_ne st newSid (knownOnly ms) (by rwa [knownOnly_idem]),
        knownOnly_idem]

/-- C9 witness: a concrete one-element batch of unknown type is dropped
without an emission. -/
theorem unknown_only_batch_emits_nothing_witness :
    monitorStep stDemo (.parsed [unknownNotif]) "next" = (stDemo, [Action.sleep]) :=
  (unknown_only_batch_emits_nothing stDemo "next" [unknownNotif] (by decide)).1

/-- C3. On the first non-empty filtered batch after a (re)connect —
`connectEffect` set `isFirstTime` and put `"Connection successful"` on
channel 6 — the body clears only the non-6 channels, so the emitted
fan-out keeps the prior connection-status message while every other
channel holds only newly dispatched items; on the next non-empty batch
all eight channels (channel 6 included) are cleared before populating,
so that fan-out's channel 6 is empty. -/
theorem first_batch_preserves_connection_channel
    (st0 : TriggerState) (sid newSid : String) (ns1 ns2 : List RawNotif)
    (h1 : knownOnly ns1 ≠ []) (h2 : knownOnly ns2 ≠ []) :
    monitorStep (connectEffect sid st0) (.parsed ns1) newSid
      = ({ connectEffect sid st0 with
            outputArray := dispatch (connectEffect sid st0).outputArray (knownOnly ns1)
            isFirstTime := false },
         [Action.emit (dispatch (connectEffect sid st0).outputArray (knownOnly ns1)),
          Action.sleep])
    ∧ (dispatch (connectEffect sid st0).outputArray (knownOnly ns1)).getD 6 []
        = [Item.connMsg "Connection successful"]
    ∧ (∀ i, i < 8 → i ≠ 6 →
        (pushChan emptyArr8 6 (Item.connMsg "Connection successful")).getD i [] = [])
    ∧ (monitorStep (monitorStep (connectEffect sid st0) (.parsed ns1) newSid).1
        (.parsed ns2) newSid).2
      = [Action.emit (dispatch emptyArr8 (knownOnly ns2)), Action.sleep]
    ∧ (dispatch emptyArr8 (knownOnly ns2)).getD 6 [] = [] := by
  refine ⟨?_, (dispatch_getD_six _ _).trans rfl, by decide, ?_,
    (dispatch_getD_six _ _).trans rfl⟩
  · rw [monitorStep_parsed_ne _ _ _ h1]; rfl
  · rw [monitorStep_parsed_ne _ _ _ h1, monitorStep_parsed_ne _ _ _ h2]; rfl

/-- C3 witness: a concrete first and second batch after a reconnect. -/
theorem first_batch_preserves_connection_channel_witness :
    (dispatch (connectEffect "s1" stDemo).outputArray (knownOnly [alarmDemoNotif])).getD 6 []
      = [Item.connMsg "Connection successful"]
    ∧ (dispatch emptyArr8 (knownOnly [alarmDemoNotif])).getD 6 [] = [] :=
  ⟨(first_batch_preserves_connection_channel stDemo "s1" "s2" [alarmDemoNotif]
      [alarmDemoNotif] (by decide) (by decide)).2.1,
   (first_batch_preserves_connection_channel stDemo "s1" "s2" [alarmDemoNotif]
      [alarmDemoNotif] (by decide) (by decide)).2.2.2.2⟩

/-- C7. The `cleanup` close function with a live session: when the
`Close` call fails, its rejection escapes `cleanup` before the
`isActive = false` line runs, so the loop flag stays `true` and the
polling loop is not terminated — contradicting the claim that the loop
terminates even when the Close call fails. When `Close` succeeds,
cleanup does emit the final disconnect notice on channel 6 and sets the
flag to `false`. -/
theorem cleanup_close_failure_leaves_loop_active :
    cleanup stDemo true = CleanupOutcome.raised stDemo [Action.closeCall]
    ∧ stDemo.isActive = true
    ∧ cleanup stDemo false
      = CleanupOutcome.completed
          { stDemo with
            outputArray := pushChan emptyArr8 6
              (Item.connMsgSession "Deconnection detected, caused by desacitvation" "abc")
            isActive := false }
          [Action.closeCall,
           Action.emit (pushChan emptyArr8 6
             (Item.connMsgSession "Deconnection detected, caused by desacitvation" "abc"))] :=
  ⟨rfl, rfl, rfl⟩

/-- C4. The save/load round-trip fails on the code: `saveSessionToFile`
only accepts a session id (no peer address exists in its signature or in
the record it writes, `{sessionId}`), and it writes `sessionIdMcp.json`
while `getSession` reads `sessionId.json` — so on an empty store a save
of `"abc"` followed by a load yields absent, not the saved pair. -/
theorem save_then_load_yields_absent :
    getSession (saveSessionToFile (some "abc") emptyFS) = none
    ∧ (saveSessionToFile (some "abc") emptyFS).mcpFile
        = some (SessContent.objOf (some "abc"))
    ∧ recordHasPairB (SessContent.objOf (some "abc")) "abc" "10.0.0.5" = false
    ∧ (saveSessionToFile (some "abc") emptyFS).sessionFile = none :=
  ⟨rfl, rfl, rfl, rfl⟩

/-- C6. `keepAlive` parses `sessionId.json` with an object-shaped cast
(`parsed.sessionId`), but the record this system stores there — written
by the trigger's `connectToServer` and accepted by `getSession` — is an
array `[{sessionId, ip}]`. On that stored record (and likewise after the
MCP save, which touches only the other file) `keepAlive` finds no id and
returns before installing the 10-second probe interval or the 5-minute
stop timeout, so no probe is ever sent and auto-logout never fires. -/
theorem keepAlive_schedules_nothing_for_stored_record :
    getSession (triggerWriteSession "abc" "10.0.0.5" emptyFS) = some "abc"
    ∧ keepAliveLoadSession (triggerWriteSession "abc" "10.0.0.5" emptyFS) = none
    ∧ keepAliveRun (triggerWriteSession "abc" "10.0.0.5" emptyFS) ts0 = ts0
    ∧ keepAliveRun (saveSessionToFile (some "abc") emptyFS) ts0 = ts0 :=
  ⟨rfl, rfl, rfl, rfl⟩

/-- C5 counterexample. With a mocked peer that accepts the credentials
(no sentinel in the `Login` body), `login-session` reports success, but
the record it persists is `{sessionId: "sess1"}` in `sessionIdMcp.json`:
it does not contain the peer address, and the store's `load`
(`getSession`) does not even see it. -/
theorem login_persists_record_without_peer_address :
    (loginSession peerOk emptyFS ts0).1 = "Session created successfully: OK"
    ∧ (loginSession peerOk emptyFS ts0).2.1.mcpFile
        = some (SessContent.objOf (some "sess1"))
    ∧ recordHasPairB (SessContent.objOf (some "sess1")) "sess1" "10.0.0.5" = false
    ∧ getSession (loginSession peerOk emptyFS ts0).2.1 = none :=
  ⟨rfl, rfl, rfl, rfl⟩

/-- C5 amended. For every session id accepted at `Open` and every
`Login` body free of the four sentinels, `login-session` returns the
success text and persists — already before the authenticate call, as the
effect trace shows — a session record containing only the session token
(no peer address). -/
theorem login_no_sentinel_success_persists_token
    (sid body : String) (sr fr : Option String) (f : FS) (ts : TimerState)
    (hsid : sid ≠ "")
    (h1 : includes body "401" = false) (h2 : includes body "402" = false)
    (h3 : includes body "406" = false) (h4 : includes body "500" = false) :
    loginSession { openSessionId := some sid, loginResp := some body,
                   startResp := sr, filterResp := fr } f ts
      = ("Session created successfully: " ++ body,
         saveSessionToFile (some sid) f,
         keepAliveRun (saveSessionToFile (some sid) f) ts,
         [LEffect.save (some sid), LEffect.keepAliveCall, LEffect.loginCall,
          LEffect.startNotifCall, LEffect.addFilterCall])
    ∧ (saveSessionToFile (some sid) f).mcpFile = some (SessContent.objOf (some sid)) := by
  constructor
  · unfold loginSession
    simp only [hsid, if_false]
    by_cases hb : body = "" <;>
      simp [classifyLogin, loginResultText, hb, h1, h2, h3, h4]
  · rfl

/-- C5 amended witness: a concrete sentinel-free login. -/
theorem login_no_sentinel_success_persists_token_witness :
    loginSession { openSessionId := some "s", loginResp := some "welcome",
                   startResp := none, filterResp := none } emptyFS ts0
      = ("Session created successfully: welcome",
         saveSessionToFile (some "s") emptyFS,
         keepAliveRun (saveSessionToFile (some "s") emptyFS) ts0,
         [LEffect.save (some "s"), LEffect.keepAliveCall, LEffect.loginCall,
          LEffect.startNotifCall, LEffect.addFilterCall]) :=
  (login_no_sentinel_success_persists_token "s" "welcome" none none emptyFS ts0
    (by decide) (by decide) (by decide) (by decide) (by decide)).1

/-- C10. For every invocation in which `Open` yields a session id,
whatever the `Login` response (`resp` ranges over all bodies, sentinel
or not, and the absent body): the `login-session` handler saves the
session record, invokes `keepAlive`, and issues the `Login`,
`StartNotifications` and `AddFilterNotifications` requests in that
order, all before the authentication body is classified — the returned
text is the classification of `resp`, while the persisted record and
the effect trace do not depend on `resp` at all. In particular, on a
body containing a failure sentinel such as `"401"` the handler returns
the corresponding error with the session record already written and the
notification calls already issued. -/
theorem login_effects_precede_classification
    (sid : String) (resp sr fr : Option String) (f : FS) (ts : TimerState)
    (hsid : sid ≠ "") :
    loginSession { openSessionId := some sid, loginResp := resp,
                   startResp := sr, filterResp := fr } f ts
      = (loginResultText (classifyLogin resp) resp,
         saveSessionToFile (some sid) f,
         keepAliveRun (saveSessionToFile (some sid) f) ts,
         [LEffect.save (some sid), LEffect.keepAliveCall, LEffect.loginCall,
          LEffect.startNotifCall, LEffect.addFilterCall])
    ∧ (saveSessionToFile (some sid) f).mcpFile = some (SessContent.objOf (some sid))
    ∧ (∀ body : String, includes body "401" = true →
        loginResultText (classifyLogin (some body)) (some body)
          = "Unauthorized: Incorrect username or password.") := by
  refine ⟨?_, rfl, ?_⟩
  · unfold loginSession
    simp [hsid]
  · intro body h401
    have hb : body ≠ "" := by
      intro hb; rw [hb] at h401; exact absurd h401 (by decide)
    simp [classifyLogin, loginResultText, hb, h401]

/-- C10 witness: concrete failing logins — a `401` body and a `402`
body — whose records are persisted and whose notification calls are
issued despite the authentication error. -/
theorem login_effects_precede_classification_witness :
    loginSession { openSessionId := some "s", loginResp := some "HTTP 401",
                   startResp := none, filterResp := none } emptyFS ts0
      = ("Unauthorized: Incorrect username or password.",
         saveSessionToFile (some "s") emptyFS,
         keepAliveRun (saveSessionToFile (some "s") emptyFS) ts0,
         [LEffect.save (some "s"), LEffect.keepAliveCall, LEffect.loginCall,
          LEffect.startNotifCall, LEffect.addFilterCall])
    ∧ loginSession { openSessionId := some "s", loginResp := some "quota 402",
                     startResp := none, filterResp := none } emptyFS ts0
      = ("Too many clients or users connected. Please try again later.",
         saveSessionToFile (some "s") emptyFS,
         keepAliveRun (saveSessionToFile (some "s") emptyFS) ts0,
         [LEffect.save (some "s"), LEffect.keepAliveCall, LEffect.loginCall,
          LEffect.startNotifCall, LEffect.addFilterCall]) :=
  ⟨(login_effects_precede_classification "s" (some "HTTP 401") none none emptyFS ts0
      (by decide)).1,
   (login_effects_precede_classification "s" (some "quota 402") none none emptyFS ts0
      (by decide)).1⟩

/-- C8 counterexample. With no session record at all, the MCP wrappers
return the uniform literal, but the n8n service node's `execute` returns
a different message (its read of the missing file throws), and with an
empty-array record it returns yet another — neither is the uniform
"no active session" literal. -/
theorem execute_no_session_message_differs :
    mcpWrapper emptyFS (fun _ _ => none) (fun _ => "resp") = (noSessionMsg, 0)
    ∧ executeOp emptyFS (fun _ => "ran")
        = ("Impossible de lire le fichier sessionId.json", 0)
    ∧ executeOp { mcpFile := none, sessionFile := some (.arrOf []) } (fun _ => "ran")
        = ("Aucun sessionId trouvé, veuillez vérifier votre fichier sessionId.json", 0)
    ∧ "Impossible de lire le fichier sessionId.json" ≠ noSessionMsg
    ∧ "Aucun sessionId trouvé, veuillez vérifier votre fichier sessionId.json"
        ≠ noSessionMsg :=
  ⟨rfl, rfl, rfl, by decide, by decide⟩

/-- C8 amended. Whenever no session is available, every MCP tool
wrapper — both the `getSessionAndHeaders`-based skeleton and the inlined
`get-current-alarms` — returns the uniform literal
`"No active session. Please log in first."` with zero network calls, and
the n8n service node's `execute` likewise attempts no network call
(returning its own, different error message). -/
theorem wrappers_no_session_uniform_precheck (f : FS)
    (call call2 : String → Option String → Option String)
    (onResp : Option String → String) (runOp : String → String)
    (h : getSession f = none) :
    mcpWrapper f call onResp = (noSessionMsg, 0)
    ∧ getCurrentAlarmsTool f call2 = (noSessionMsg, 0)
    ∧ (executeOp f runOp).2 = 0 := by
  refine ⟨by simp [mcpWrapper, getSessionAndHeadersM, h],
    by simp [getCurrentAlarmsTool, h], ?_⟩
  cases hf : f.sessionFile with
  | none => simp [executeOp, executePrecheck, hf]
  | some c =>
    cases c with
    | arrOf es =>
      cases es with
      | nil => simp [executeOp, executePrecheck, hf]
      | cons e tl =>
        have h' : jsTruthyStr e.sessionId = none := by
          simpa [getSession, hf] using h
        simp [executeOp, executePrecheck, hf, h']
    | objOf s => simp [executeOp, executePrecheck, hf]
    | malformed => simp [executeOp, executePrecheck, hf]

/-- C8 amended witness: the uniform pre-check at a concrete empty
store. -/
theorem wrappers_no_session_uniform_precheck_witness :
    getCurrentAlarmsTool emptyFS (fun _ _ => some "alarms") = (noSessionMsg, 0) :=
  (wrappers_no_session_uniform_precheck emptyFS (fun _ _ => none)
    (fun _ _ => some "alarms") (fun _ => "r") (fun _ => "ran") rfl).2.1

end AppVision
